import Mathlib

/-!
Verification of the NodeA file-transfer protocol: a shallow embedding of
the receiver (global_model_receiver.py, method handle_global_model and the
accept loop of start_receiver) and of the two clients
(enhanced_file_transfer_client.py and file_transfer_client.py).

Modelling conventions:
- bytes are Nat, a byte stream is a List Nat;
- the TCP input of one connection is the flat list of payload bytes the
  sender wrote before closing; a recv of n bytes takes up to n bytes from
  the front of that list, and an empty result means the peer closed;
- the filesystem is an association list from path to file content;
- the SHA-256 digest (library call hashlib.sha256 in the source) is a
  parameter hashFn from byte lists to hex strings, shared by both sides.
-/

/-- Filesystem: association list from path to byte content. -/
abbrev FS := List (String × List Nat)

/-- Look up a path in the filesystem. -/
def fsGet (fs : FS) (p : String) : Option (List Nat) :=
  match fs with
  | [] => none
  | (q, c) :: rest => if q = p then some c else fsGet rest p

/-- Write (create or overwrite) a file. -/
def fsSet (fs : FS) (p : String) (c : List Nat) : FS :=
  match fs with
  | [] => [(p, c)]
  | (q, d) :: rest => if q = p then (p, c) :: rest else (q, d) :: fsSet rest p c

/-- The metadata record of one transfer, as the receiver reads it out of the
decoded JSON frame (metadata.get calls at lines 91-95 of
global_model_receiver.py).  file_size is the declared payload length, a
non-negative integer per the wire format. -/
structure TransferMetadata where
  file_type : String
  file_name : String
  file_size : Nat
  file_hash : String
  sender : String

/-- The byte count the receiver asks for in one recv call:
min(self.chunk_size, expected_size - bytes_received) at line 118. -/
def recvRequest (chunkSize remaining : Nat) : Nat := min chunkSize remaining

/-- Result of the payload receive loop (lines 116-128): the bytes written to
the destination file, whether the connection closed before the declared
size arrived, and the part of the input stream not consumed. -/
structure RecvLoopResult where
  received : List Nat
  closedEarly : Bool
  remaining : List Nat
deriving DecidableEq

/-- The payload receive loop of handle_global_model (lines 117-124):
while bytes_received < expected_size, recv up to
min(chunk_size, expected_size - bytes_received) bytes; an empty recv
result (peer closed) aborts; otherwise the chunk is written and counted. -/
def recvLoop (chunkSize expectedSize : Nat) (stream acc : List Nat) : RecvLoopResult :=
  if acc.length < expectedSize then
    if h : stream.take (recvRequest chunkSize (expectedSize - acc.length)) = [] then
      { received := acc, closedEarly := true, remaining := stream }
    else
      recvLoop chunkSize expectedSize
        (stream.drop (recvRequest chunkSize (expectedSize - acc.length)))
        (acc ++ stream.take (recvRequest chunkSize (expectedSize - acc.length)))
  else
    { received := acc, closedEarly := false, remaining := stream }
termination_by stream.length
decreasing_by
  rw [List.take_eq_nil_iff] at h
  push_neg at h
  have hr : recvRequest chunkSize (expectedSize - acc.length) ≠ 0 := h.1
  have hs : 0 < stream.length := List.length_pos.mpr h.2
  simp only [List.length_drop]
  omega

/-- The fixed canonical destination path the receiver writes every accepted
global-model payload to (lines 104, 107, 116, 139 all name it literally). -/
def destPath : String := "global_latest.h5"

/-- The timestamp-suffixed backup path (line 103). -/
def backupPath (ts : String) : String := "global_latest_backup_" ++ ts ++ ".h5"

/-- The receiver chunk size, fixed at construction (line 27). -/
def receiverChunkSize : Nat := 8192

/-- Filesystem actions of one connection handler, in program order. -/
inductive FsEvent where
  | backupCopy (src dst : String)
  | openTrunc (path : String)
  | writeBytes (path : String) (count : Nat)
  | auditWrite (path : String)
deriving DecidableEq

/-- Observable outcome of one handled connection: the final filesystem, the
status tokens sent to the peer in order, the filesystem actions in order,
and the final bytes_received counter. -/
structure RecvResult where
  fs : FS
  sent : List String
  events : List FsEvent
  bytesReceived : Nat

/-- The backup step of handle_global_model (lines 102-110): when a file
already exists at the canonical destination, shutil.copy2 copies it to
the timestamp-suffixed backup path; backupOk says whether that copy
succeeds, and a failure leaves the filesystem unchanged (it is only
logged). -/
def backupFs (fs : FS) (backupOk : Bool) (ts : String) : FS :=
  if (fsGet fs destPath).isSome && backupOk then
    fsSet fs (backupPath ts) ((fsGet fs destPath).getD [])
  else
    fs

/-- The filesystem actions the backup step performs. -/
def backupEvents (fs : FS) (backupOk : Bool) (ts : String) : List FsEvent :=
  if (fsGet fs destPath).isSome && backupOk then
    [FsEvent.backupCopy destPath (backupPath ts)]
  else
    []

/-- Shallow embedding of handle_global_model (global_model_receiver.py,
lines 85-165), from the point where the metadata frame has been decoded:
send READY (line 88, before any validation), reject any file_type other
than global_model with INVALID_TYPE (lines 97-100), back up an existing
destination file best-effort (lines 102-110, backupOk says whether the
copy succeeds), truncate the destination and stream the payload into it
(lines 116-128), then verify size (lines 133-136) and the digest of the
bytes persisted on disk (lines 139-143), answering SIZE_MISMATCH,
HASH_MISMATCH or SUCCESS; on success the audit record
global_model_info.json is also written (lines 151-163).  The connection
closing before enough payload arrived makes the handler return silently
(lines 119-121).  hashFn stands for the SHA-256 hex digest. -/
def handle_global_model (md : TransferMetadata) (stream : List Nat) (fs : FS)
    (backupOk : Bool) (ts : String) (hashFn : List Nat → String) : RecvResult :=
  if md.file_type ≠ "global_model" then
    { fs := fs, sent := ["READY", "INVALID_TYPE"], events := [], bytesReceived := 0 }
  else
    let fs1 := backupFs fs backupOk ts
    let r := recvLoop receiverChunkSize md.file_size stream []
    let fs2 := fsSet fs1 destPath r.received
    let events := backupEvents fs backupOk ts ++
      [FsEvent.openTrunc destPath, FsEvent.writeBytes destPath r.received.length]
    if r.closedEarly then
      { fs := fs2, sent := ["READY"], events := events, bytesReceived := r.received.length }
    else if r.received.length ≠ md.file_size then
      { fs := fs2, sent := ["READY", "SIZE_MISMATCH"], events := events,
        bytesReceived := r.received.length }
    else if hashFn ((fsGet fs2 destPath).getD []) ≠ md.file_hash then
      { fs := fs2, sent := ["READY", "HASH_MISMATCH"], events := events,
        bytesReceived := r.received.length }
    else
      { fs := fs2, sent := ["READY", "SUCCESS"],
        events := events ++ [FsEvent.auditWrite "global_model_info.json"],
        bytesReceived := r.received.length }

/-- Percentage progress as printed by both sides:
(bytes_sent / file_size) * 100, in exact rational arithmetic. -/
def progressPct (bytesSent fileSize : Nat) : ℚ :=
  ((bytesSent : ℚ) / (fileSize : ℚ)) * 100

/-- The file send loop of the clients (enhanced_file_transfer_client.py
lines 160-171, identically file_transfer_client.py lines 98-109): read
chunk_size bytes from the source file, stop at end of file, otherwise send
the chunk, add its length to bytes_sent and emit one progress update.
Returns the list of progress updates (bytes_sent, percentage) in order. -/
def sendLoop (chunkSize : Nat) (file : List Nat) (bytesSent fileSize : Nat) :
    List (Nat × ℚ) :=
  if h : file.take chunkSize = [] then []
  else
    (bytesSent + (file.take chunkSize).length,
      progressPct (bytesSent + (file.take chunkSize).length) fileSize) ::
      sendLoop chunkSize (file.drop chunkSize)
        (bytesSent + (file.take chunkSize).length) fileSize
termination_by file.length
decreasing_by
  rw [List.take_eq_nil_iff] at h
  push_neg at h
  have hcs : chunkSize ≠ 0 := h.1
  have hf : 0 < file.length := List.length_pos.mpr h.2
  simp only [List.length_drop]
  omega

/-- Outcome of the TCP connect call of one attempt. -/
inductive ConnectOutcome where
  | ok
  | refused
  | timedOut
deriving DecidableEq

/-- Environment of one client send attempt: what the network and the server
do on the exit paths the source distinguishes (connect result, the first
acknowledgement, an exception after some number of sent chunks, a timeout
while waiting for the final token, and the final token itself). -/
structure AttemptEnv where
  connect : ConnectOutcome
  serverAck : String
  midStreamFailAfter : Option Nat
  finalRecvTimeout : Bool
  finalAck : String

/-- Result of one client send attempt: the boolean outcome, whether the
socket was closed before returning, and the progress updates emitted. -/
structure AttemptResult where
  success : Bool
  socketClosed : Bool
  updates : List (Nat × ℚ)

/-- Shallow embedding of
EnhancedFileTransferClient._send_file_single_attempt
(enhanced_file_transfer_client.py, lines 125-196).  The whole attempt body
is a try block whose finally clause closes the socket (lines 194-196), so
socketClosed is true on every path: refused or timed-out connect
(lines 184-190), a first acknowledgement other than READY (lines 154-157),
an exception after some chunks were sent (caught at lines 191-193), a
timeout waiting for the final token, a final token other than SUCCESS
(lines 180-182), and success (lines 178-179). -/
def send_file_single_attempt (env : AttemptEnv) (file : List Nat) (chunkSize : Nat) :
    AttemptResult :=
  match env.connect with
  | ConnectOutcome.refused => { success := false, socketClosed := true, updates := [] }
  | ConnectOutcome.timedOut => { success := false, socketClosed := true, updates := [] }
  | ConnectOutcome.ok =>
    if env.serverAck ≠ "READY" then
      { success := false, socketClosed := true, updates := [] }
    else
      match env.midStreamFailAfter with
      | some k =>
        { success := false, socketClosed := true,
          updates := (sendLoop chunkSize file 0 file.length).take k }
      | none =>
        if env.finalRecvTimeout then
          { success := false, socketClosed := true,
            updates := sendLoop chunkSize file 0 file.length }
        else
          { success := env.finalAck = "SUCCESS", socketClosed := true,
            updates := sendLoop chunkSize file 0 file.length }

/-- Shallow embedding of FileTransferClient.send_file
(file_transfer_client.py, lines 65-133).  This older client has no finally
clause: the socket is closed explicitly only on the non-READY path
(line 94) and after the send loop before checking the final token
(line 115); the exception handlers for timeout, refused connection and any
mid-stream error (lines 124-133) return without closing it. -/
def send_file (env : AttemptEnv) (file : List Nat) (chunkSize : Nat) : AttemptResult :=
  match env.connect with
  | ConnectOutcome.refused => { success := false, socketClosed := false, updates := [] }
  | ConnectOutcome.timedOut => { success := false, socketClosed := false, updates := [] }
  | ConnectOutcome.ok =>
    if env.serverAck ≠ "READY" then
      { success := false, socketClosed := true, updates := [] }
    else
      match env.midStreamFailAfter with
      | some k =>
        { success := false, socketClosed := false,
          updates := (sendLoop chunkSize file 0 file.length).take k }
      | none =>
        if env.finalRecvTimeout then
          { success := false, socketClosed := false,
            updates := sendLoop chunkSize file 0 file.length }
        else
          { success := env.finalAck = "SUCCESS", socketClosed := true,
            updates := sendLoop chunkSize file 0 file.length }

/-- One observable event of send_file_with_retry: an attempt with its
1-based number, or the fixed sleep between attempts. -/
inductive ClientEvent where
  | attempt (i : Nat)
  | sleepDelay (seconds : Nat)
deriving DecidableEq

def isAttemptEvent : ClientEvent → Bool
  | ClientEvent.attempt _ => true
  | ClientEvent.sleepDelay _ => false

def isSleepEvent : ClientEvent → Bool
  | ClientEvent.attempt _ => false
  | ClientEvent.sleepDelay _ => true

/-- The retry loop of send_file_with_retry
(enhanced_file_transfer_client.py, lines 103-123): for attempt in
range(1, retry_attempts + 1), run one attempt, return success at once on
True, and sleep retry_delay seconds only when another attempt follows
(lines 118-120).  The loop is embedded as structural recursion over the
list of attempt numbers range(1, retry_attempts + 1). -/
def retryLoop (attemptSucceeds : Nat → Bool) (retryAttempts retryDelay : Nat) :
    List Nat → List ClientEvent × Bool
  | [] => ([], false)
  | i :: rest =>
    if attemptSucceeds i then
      ([ClientEvent.attempt i], true)
    else if i < retryAttempts then
      let r := retryLoop attemptSucceeds retryAttempts retryDelay rest
      (ClientEvent.attempt i :: ClientEvent.sleepDelay retryDelay :: r.1, r.2)
    else
      ([ClientEvent.attempt i], false)

/-- Shallow embedding of send_file_with_retry
(enhanced_file_transfer_client.py, lines 81-123): a missing source file or
a failed digest computation return False before any attempt (lines 89-97);
otherwise the retry loop runs.  attemptSucceeds i is what
_send_file_single_attempt returns (or False when it raises, line 114) on
the i-th attempt. -/
def send_file_with_retry (fileExists : Bool) (hashResult : Option String)
    (attemptSucceeds : Nat → Bool) (retryAttempts retryDelay : Nat) :
    List ClientEvent × Bool :=
  if fileExists = false then ([], false)
  else
    match hashResult with
    | none => ([], false)
    | some _ =>
      retryLoop attemptSucceeds retryAttempts retryDelay
        (List.range' 1 retryAttempts)

/-- Default retry_attempts from the config (lines 37 and 53). -/
def defaultRetryAttempts : Nat := 3

/-- Default retry_delay in seconds from the config (lines 38 and 54). -/
def defaultRetryDelay : Nat := 5

/-- The modules imported at the top of global_model_receiver.py
(lines 7-12): os, json, socket, threading, hashlib and the datetime name
from the datetime module.  The time module is not among them. -/
def receiverTopLevelImports : List String :=
  ["os", "json", "socket", "threading", "hashlib", "datetime"]

/-- What one pass of the accept loop observes (start_receiver,
lines 188-205): a connection was accepted, KeyboardInterrupt was raised,
or accept raised some other exception. -/
inductive AcceptEvent where
  | accepted
  | keyboardInterrupt
  | acceptError
deriving DecidableEq

/-- How one pass of the accept loop ends. -/
inductive LoopOutcome where
  | continues
  | stoppedGracefully
  | crashed (message : String)
deriving DecidableEq

/-- One pass of the accept loop of start_receiver (lines 188-205): an
accepted connection is handed to a worker thread and the loop continues;
KeyboardInterrupt breaks out gracefully; any other exception is logged and
the handler then evaluates time.sleep(1) (line 205) — which only works if
the name time resolves against the module imports, and raises NameError
otherwise, an exception the while loop does not catch. -/
def acceptLoopIteration (ev : AcceptEvent) : LoopOutcome :=
  match ev with
  | AcceptEvent.accepted => LoopOutcome.continues
  | AcceptEvent.keyboardInterrupt => LoopOutcome.stoppedGracefully
  | AcceptEvent.acceptError =>
    if receiverTopLevelImports.contains "time" then
      LoopOutcome.continues
    else
      LoopOutcome.crashed "NameError: name time is not defined"

/-- Sample metadata record used for concrete instantiations. -/
def sampleMetadata (t : String) (size : Nat) (hash : String) : TransferMetadata :=
  { file_type := t, file_name := "model_best.h5", file_size := size,
    file_hash := hash, sender := "pocl_server" }

/-- The attempt environment of a clean, fully successful run. -/
def cleanEnv : AttemptEnv :=
  { connect := ConnectOutcome.ok
    serverAck := "READY"
    midStreamFailAfter := none
    finalRecvTimeout := false
    finalAck := "SUCCESS" }

/-- The attempt environment of a refused connection. -/
def refusedEnv : AttemptEnv :=
  { connect := ConnectOutcome.refused
    serverAck := ""
    midStreamFailAfter := none
    finalRecvTimeout := false
    finalAck := "" }

theorem fsGet_fsSet_same (fs : FS) (p : String) (c : List Nat) :
    fsGet (fsSet fs p c) p = some c := by
  induction fs with
  | nil => simp [fsSet, fsGet]
  | cons hd tl ih =>
    obtain ⟨q, d⟩ := hd
    by_cases h : q = p
    · simp [fsSet, fsGet, h]
    · simp [fsSet, fsGet, h, ih]

theorem fsGet_fsSet_other (fs : FS) (p q : String) (c : List Nat) (h : p ≠ q) :
    fsGet (fsSet fs p c) q = fsGet fs q := by
  induction fs with
  | nil => simp [fsSet, fsGet, h]
  | cons hd tl ih =>
    obtain ⟨r, d⟩ := hd
    by_cases hr : r = p
    · subst hr
      simp [fsSet, fsGet, h]
    · simp [fsSet, fsGet, hr, ih]

/-- Closed form of the receive loop, for a positive chunk size: starting
from already-received bytes acc, the loop either finishes with exactly the
missing expectedSize - acc.length bytes taken from the front of the
stream, or, when the stream is too short, consumes the whole stream and
reports the connection closed early. -/
theorem recvLoop_closed (chunkSize expectedSize : Nat) (hcs : 1 ≤ chunkSize) :
    ∀ (n : Nat) (stream acc : List Nat), stream.length ≤ n →
      recvLoop chunkSize expectedSize stream acc =
        if expectedSize ≤ acc.length then
          { received := acc, closedEarly := false, remaining := stream }
        else if stream.length < expectedSize - acc.length then
          { received := acc ++ stream, closedEarly := true, remaining := [] }
        else
          { received := acc ++ stream.take (expectedSize - acc.length),
            closedEarly := false,
            remaining := stream.drop (expectedSize - acc.length) } := by
  intro n
  induction n with
  | zero =>
    intro stream acc hle
    have hstream : stream = [] := List.length_eq_zero.mp (Nat.le_zero.mp hle)
    subst hstream
    rw [recvLoop]
    by_cases hfull : expectedSize ≤ acc.length
    · rw [if_neg (Nat.not_lt.mpr hfull), if_pos hfull]
    · have hlt : acc.length < expectedSize := Nat.lt_of_not_le hfull
      rw [if_pos hlt, if_neg hfull, dif_pos (by simp),
        if_pos (by simp only [List.length_nil]; omega)]
      simp
  | succ n ih =>
    intro stream acc hle
    rw [recvLoop]
    by_cases hfull : expectedSize ≤ acc.length
    · rw [if_neg (Nat.not_lt.mpr hfull), if_pos hfull]
    · have hlt : acc.length < expectedSize := Nat.lt_of_not_le hfull
      rw [if_pos hlt, if_neg hfull]
      by_cases hstream : stream = []
      · subst hstream
        rw [dif_pos (by simp), if_pos (by simp only [List.length_nil]; omega)]
        simp
      · have hs1 : 0 < stream.length := List.length_pos.mpr hstream
        have hreq1 : 1 ≤ recvRequest chunkSize (expectedSize - acc.length) := by
          simp only [recvRequest]
          omega
        have hreq2 : recvRequest chunkSize (expectedSize - acc.length) ≤
            expectedSize - acc.length := Nat.min_le_right _ _
        have htk : stream.take (recvRequest chunkSize (expectedSize - acc.length)) ≠ [] := by
          intro hcon
          rcases List.take_eq_nil_iff.mp hcon with h0 | h0
          · omega
          · exact hstream h0
        rw [dif_neg htk]
        have hlen : (stream.drop (recvRequest chunkSize (expectedSize - acc.length))).length ≤ n := by
          simp only [List.length_drop]
          omega
        rw [ih _ _ hlen]
        simp only [List.length_append, List.length_take, List.length_drop]
        rcases Nat.le_total (recvRequest chunkSize (expectedSize - acc.length)) stream.length
          with hc | hc
        · rw [min_eq_left hc]
          by_cases hshort : stream.length < expectedSize - acc.length
          · -- the stream is too short on both sides: closed early
            rw [if_neg (by omega), if_pos (by omega), if_pos hshort,
              List.append_assoc, List.take_append_drop]
          · by_cases hre : recvRequest chunkSize (expectedSize - acc.length) =
                expectedSize - acc.length
            · -- one request fetched all missing bytes
              rw [hre, if_pos (by omega), if_neg hshort]
            · -- the recursive call fetched the rest: splice the two takes
              rw [if_neg (by omega), if_neg (by omega), if_neg hshort]
              have hk : expectedSize -
                  (acc.length + recvRequest chunkSize (expectedSize - acc.length)) =
                  (expectedSize - acc.length) -
                    recvRequest chunkSize (expectedSize - acc.length) := by omega
              rw [hk]
              have hsum : recvRequest chunkSize (expectedSize - acc.length) +
                  ((expectedSize - acc.length) -
                    recvRequest chunkSize (expectedSize - acc.length)) =
                  expectedSize - acc.length := by omega
              rw [RecvLoopResult.mk.injEq]
              refine ⟨?_, rfl, ?_⟩
              · rw [List.append_assoc, ← List.take_add, hsum]
              · rw [List.drop_drop, hsum]
        · rw [min_eq_right hc, List.take_of_length_le hc, List.drop_of_length_le hc]
          by_cases hshort : stream.length < expectedSize - acc.length
          · rw [if_neg (by omega), if_pos (by omega), if_pos hshort, List.append_nil]
          · -- here the whole stream is exactly the missing byte count
            rw [if_pos (by omega), if_neg hshort,
              List.take_of_length_le (by omega), List.drop_of_length_le (by omega)]

/-- The receive loop as handle_global_model calls it: nothing received yet. -/
theorem recvLoop_run (chunkSize expectedSize : Nat) (hcs : 1 ≤ chunkSize) (stream : List Nat) :
    recvLoop chunkSize expectedSize stream [] =
      if stream.length < expectedSize then
        { received := stream, closedEarly := true, remaining := [] }
      else
        { received := stream.take expectedSize, closedEarly := false,
          remaining := stream.drop expectedSize } := by
  rw [recvLoop_closed chunkSize expectedSize hcs stream.length stream [] le_rfl]
  simp only [List.length_nil, Nat.sub_zero, List.nil_append]
  by_cases h0 : expectedSize = 0
  · subst h0
    rw [if_pos (Nat.le_refl 0), if_neg (by omega)]
    simp
  · rw [if_neg (by omega)]

theorem sendLoop_nil (chunkSize bytesSent fileSize : Nat) :
    sendLoop chunkSize [] bytesSent fileSize = [] := by
  rw [sendLoop]
  simp

/-- Arithmetic for the chunk count: one more chunk on top of the chunks of
the remaining len - cs bytes is the ceiling division of len by cs. -/
theorem chunkCount_step (len cs : Nat) (hlen : 1 ≤ len) (hcs : 1 ≤ cs) :
    ((len - cs) + cs - 1) / cs + 1 = (len + cs - 1) / cs := by
  by_cases hle : len ≤ cs
  · have e1 : (len - cs) + cs - 1 = cs - 1 := by omega
    have e2 : len + cs - 1 = (len - 1) + cs := by omega
    rw [e1, e2, Nat.add_div_right _ (by omega), Nat.div_eq_of_lt (by omega),
      Nat.div_eq_of_lt (by omega)]
  · have e1 : (len - cs) + cs - 1 = len - 1 := by omega
    have e2 : len + cs - 1 = (len - 1) + cs := by omega
    rw [e1, e2, Nat.add_div_right _ (by omega)]

/-- The send loop emits exactly one progress update per chunk, that is
ceil(file length / chunk size) updates. -/
theorem sendLoop_length (chunkSize : Nat) (hcs : 1 ≤ chunkSize) :
    ∀ (n : Nat) (file : List Nat) (bytesSent fileSize : Nat), file.length ≤ n →
      (sendLoop chunkSize file bytesSent fileSize).length =
        (file.length + chunkSize - 1) / chunkSize := by
  intro n
  induction n with
  | zero =>
    intro file bytesSent fileSize hle
    have hfile : file = [] := List.length_eq_zero.mp (Nat.le_zero.mp hle)
    subst hfile
    rw [sendLoop_nil]
    simp only [List.length_nil, Nat.zero_add]
    rw [Nat.div_eq_of_lt (by omega)]
  | succ n ih =>
    intro file bytesSent fileSize hle
    by_cases hfile : file = []
    · subst hfile
      rw [sendLoop_nil]
      simp only [List.length_nil, Nat.zero_add]
      rw [Nat.div_eq_of_lt (by omega)]
    · have hf1 : 0 < file.length := List.length_pos.mpr hfile
      have htk : file.take chunkSize ≠ [] := by
        intro hcon
        rcases List.take_eq_nil_iff.mp hcon with h0 | h0
        · omega
        · exact hfile h0
      rw [sendLoop, dif_neg htk]
      have hlen : (file.drop chunkSize).length ≤ n := by
        simp only [List.length_drop]
        omega
      simp only [List.length_cons, ih _ _ _ hlen, List.length_drop]
      exact chunkCount_step file.length chunkSize (by omega) hcs

/-- The final progress update of the send loop reports all bytes sent. -/
theorem sendLoop_getLast (chunkSize : Nat) (hcs : 1 ≤ chunkSize) :
    ∀ (n : Nat) (file : List Nat) (bytesSent fileSize : Nat), file.length ≤ n →
      file ≠ [] →
      (sendLoop chunkSize file bytesSent fileSize).getLast? =
        some (bytesSent + file.length,
          progressPct (bytesSent + file.length) fileSize) := by
  intro n
  induction n with
  | zero =>
    intro file bytesSent fileSize hle hfile
    exact absurd (List.length_eq_zero.mp (Nat.le_zero.mp hle)) hfile
  | succ n ih =>
    intro file bytesSent fileSize hle hfile
    have hf1 : 0 < file.length := List.length_pos.mpr hfile
    have htk : file.take chunkSize ≠ [] := by
      intro hcon
      rcases List.take_eq_nil_iff.mp hcon with h0 | h0
      · omega
      · exact hfile h0
    rw [sendLoop, dif_neg htk]
    by_cases hshort : file.length ≤ chunkSize
    · have hdrop : file.drop chunkSize = [] := List.drop_of_length_le hshort
      rw [hdrop, sendLoop_nil, List.take_of_length_le hshort]
      rfl
    · have hdlen : (file.drop chunkSize).length ≤ n := by
        simp only [List.length_drop]
        omega
      have hdne : file.drop chunkSize ≠ [] := by
        intro hcon
        have := List.drop_eq_nil_iff.mp hcon
        omega
      rw [List.getLast?_cons, ih _ _ _ hdlen hdne]
      simp only [List.length_take, List.length_drop, Option.getD_some]
      have hmin : min chunkSize file.length = chunkSize := by omega
      rw [hmin]
      have hsum : bytesSent + chunkSize + (file.length - chunkSize) =
          bytesSent + file.length := by omega
      rw [hsum]

/-- Evaluation of the handler when the connection closes early: the stream
holds fewer bytes than declared, the loop aborts, the destination file is
left holding exactly the bytes that arrived, and only READY was ever sent. -/
theorem handle_run_early (md : TransferMetadata) (stream : List Nat) (fs : FS)
    (backupOk : Bool) (ts : String) (hashFn : List Nat → String)
    (htype : md.file_type = "global_model")
    (hshort : stream.length < md.file_size) :
    handle_global_model md stream fs backupOk ts hashFn =
      { fs := fsSet (backupFs fs backupOk ts) destPath stream,
        sent := ["READY"],
        events := backupEvents fs backupOk ts ++
          [FsEvent.openTrunc destPath, FsEvent.writeBytes destPath stream.length],
        bytesReceived := stream.length } := by
  have hcs : 1 ≤ receiverChunkSize := by norm_num [receiverChunkSize]
  simp only [handle_global_model, htype, ne_eq, not_true_eq_false, if_false,
    recvLoop_run _ _ hcs, if_pos hshort]
  simp

/-- Evaluation of the handler when the declared byte count arrives but the
digest of the persisted bytes differs from the declared one. -/
theorem handle_run_hash_mismatch (md : TransferMetadata) (stream : List Nat) (fs : FS)
    (backupOk : Bool) (ts : String) (hashFn : List Nat → String)
    (htype : md.file_type = "global_model")
    (hfull : md.file_size ≤ stream.length)
    (hmis : hashFn (stream.take md.file_size) ≠ md.file_hash) :
    handle_global_model md stream fs backupOk ts hashFn =
      { fs := fsSet (backupFs fs backupOk ts) destPath (stream.take md.file_size),
        sent := ["READY", "HASH_MISMATCH"],
        events := backupEvents fs backupOk ts ++
          [FsEvent.openTrunc destPath, FsEvent.writeBytes destPath md.file_size],
        bytesReceived := md.file_size } := by
  have hcs : 1 ≤ receiverChunkSize := by norm_num [receiverChunkSize]
  simp only [handle_global_model, htype, ne_eq, not_true_eq_false, if_false,
    recvLoop_run _ _ hcs, if_neg (Nat.not_lt.mpr hfull)]
  simp only [List.length_take, min_eq_left hfull, fsGet_fsSet_same, Option.getD_some]
  simp [hmis]

/-- Evaluation of the handler on a fully successful transfer. -/
theorem handle_run_success (md : TransferMetadata) (stream : List Nat) (fs : FS)
    (backupOk : Bool) (ts : String) (hashFn : List Nat → String)
    (htype : md.file_type = "global_model")
    (hfull : md.file_size ≤ stream.length)
    (hmatch : hashFn (stream.take md.file_size) = md.file_hash) :
    handle_global_model md stream fs backupOk ts hashFn =
      { fs := fsSet (backupFs fs backupOk ts) destPath (stream.take md.file_size),
        sent := ["READY", "SUCCESS"],
        events := backupEvents fs backupOk ts ++
          [FsEvent.openTrunc destPath, FsEvent.writeBytes destPath md.file_size,
            FsEvent.auditWrite "global_model_info.json"],
        bytesReceived := md.file_size } := by
  have hcs : 1 ≤ receiverChunkSize := by norm_num [receiverChunkSize]
  simp only [handle_global_model, htype, ne_eq, not_true_eq_false, if_false,
    recvLoop_run _ _ hcs, if_neg (Nat.not_lt.mpr hfull)]
  simp only [List.length_take, min_eq_left hfull, fsGet_fsSet_same, Option.getD_some]
  simp [hmatch]

/-- Evaluation of the handler on a rejected file_type: READY was already on
the wire (line 88) when the type check ran, then INVALID_TYPE is sent and
the handler returns without touching the filesystem or the payload. -/
theorem handle_run_invalid_type (md : TransferMetadata) (stream : List Nat) (fs : FS)
    (backupOk : Bool) (ts : String) (hashFn : List Nat → String)
    (htype : md.file_type ≠ "global_model") :
    handle_global_model md stream fs backupOk ts hashFn =
      { fs := fs, sent := ["READY", "INVALID_TYPE"], events := [], bytesReceived := 0 } := by
  simp only [handle_global_model]
  rw [if_pos htype]

/-- The backup path never collides with the canonical destination path,
whatever the timestamp string is: it is strictly longer. -/
theorem backupPath_ne_destPath (ts : String) : backupPath ts ≠ destPath := by
  intro hcon
  have hlen : (backupPath ts).length = destPath.length := by rw [hcon]
  simp only [backupPath, destPath, String.length_append] at hlen
  have h1 : ("global_latest_backup_" : String).length = 21 := rfl
  have h2 : (".h5" : String).length = 3 := rfl
  have h3 : ("global_latest.h5" : String).length = 16 := rfl
  omega

/-- When every attempt fails, the retry loop over the attempt numbers
s, s+1, ..., maxA returns False, makes those attempts in order, sleeps
exactly between consecutive attempts, and ends on the last attempt. -/
theorem retryLoop_cons (f : Nat → Bool) (maxA d i : Nat) (rest : List Nat) :
    retryLoop f maxA d (i :: rest) =
      if f i then ([ClientEvent.attempt i], true)
      else if i < maxA then
        (ClientEvent.attempt i :: ClientEvent.sleepDelay d ::
          (retryLoop f maxA d rest).1, (retryLoop f maxA d rest).2)
      else ([ClientEvent.attempt i], false) := rfl

theorem retryLoop_fail_aux (f : Nat → Bool) (maxA d : Nat) (hf : ∀ i, f i = false) :
    ∀ (k s : Nat), 1 ≤ k → s + k = maxA + 1 →
      (retryLoop f maxA d (List.range' s k)).2 = false ∧
      ((retryLoop f maxA d (List.range' s k)).1).filter isAttemptEvent =
        (List.range' s k).map ClientEvent.attempt ∧
      ((retryLoop f maxA d (List.range' s k)).1).filter isSleepEvent =
        List.replicate (k - 1) (ClientEvent.sleepDelay d) ∧
      ((retryLoop f maxA d (List.range' s k)).1).getLast? =
        some (ClientEvent.attempt maxA) := by
  intro k
  induction k with
  | zero =>
    intro s h1 h2
    omega
  | succ n ih =>
    intro s h1 h2
    rcases Nat.eq_zero_or_pos n with hn | hn
    · subst hn
      have hs : s = maxA := by omega
      rw [List.range'_one, hs]
      simp [retryLoop_cons, hf maxA, isAttemptEvent, isSleepEvent]
    · obtain ⟨m, rfl⟩ : ∃ m, n = m + 1 := ⟨n - 1, by omega⟩
      have hslt : s < maxA := by omega
      obtain ⟨ihr, iha, ihs, ihl⟩ := ih (s + 1) hn (by omega)
      rw [List.range'_succ, retryLoop_cons, hf s]
      simp only [Bool.false_eq_true, if_false]
      rw [if_pos hslt]
      refine ⟨ihr, ?_, ?_, ?_⟩
      · simp [isAttemptEvent, isSleepEvent, iha]
      · simp [isAttemptEvent, isSleepEvent, ihs, List.replicate_succ]
      · rw [List.getLast?_cons_cons, List.getLast?_cons, ihl]
        rfl

/-- C1 as frozen is false on the code: at this concrete connection the
metadata carries file_type "metadata", the receiver does send the distinct
INVALID_TYPE token, but READY is already among the sent tokens, because
line 88 sends it before the type check of line 97. -/
theorem c1_counterexample :
    "INVALID_TYPE" ∈ (handle_global_model (sampleMetadata "metadata" 4 "h")
      [1, 2, 3, 4] [] true "20250101_000000" (fun _ => "h")).sent ∧
    "READY" ∈ (handle_global_model (sampleMetadata "metadata" 4 "h")
      [1, 2, 3, 4] [] true "20250101_000000" (fun _ => "h")).sent := by
  rw [handle_run_invalid_type _ _ _ _ _ _ (by decide)]
  constructor
  · simp
  · simp

/-- C1 (amended): a metadata frame whose file_type is not global_model is
rejected with the distinct INVALID_TYPE token; the handler aborts without
reading any payload byte and without touching the filesystem, and never
sends SUCCESS — but the READY acknowledgement has already been sent before
the type validation, so the tokens on the wire are READY then
INVALID_TYPE. -/
theorem c1_invalid_type_rejected (md : TransferMetadata) (stream : List Nat) (fs : FS)
    (backupOk : Bool) (ts : String) (hashFn : List Nat → String)
    (htype : md.file_type ≠ "global_model") :
    (handle_global_model md stream fs backupOk ts hashFn).sent = ["READY", "INVALID_TYPE"] ∧
    (handle_global_model md stream fs backupOk ts hashFn).bytesReceived = 0 ∧
    (handle_global_model md stream fs backupOk ts hashFn).fs = fs ∧
    "SUCCESS" ∉ (handle_global_model md stream fs backupOk ts hashFn).sent := by
  rw [handle_run_invalid_type md stream fs backupOk ts hashFn htype]
  refine ⟨rfl, rfl, rfl, by simp⟩

/-- Witness for C1 at a concrete rejected connection. -/
theorem c1_witness :
    ("metadata" : String) ≠ "global_model" ∧
    (handle_global_model (sampleMetadata "metadata" 4 "h") [1, 2, 3, 4] []
      true "20250101_000000" (fun _ => "h")).sent = ["READY", "INVALID_TYPE"] :=
  ⟨by decide, (c1_invalid_type_rejected (sampleMetadata "metadata" 4 "h") [1, 2, 3, 4] []
    true "20250101_000000" (fun _ => "h") (by decide)).1⟩

/-- C2 as frozen is false on the code: at this concrete transfer the
declared size is 2 but the connection closes after 1 payload byte, and the
receiver sends no SIZE_MISMATCH token at all — the receive loop returns
silently on a closed connection (lines 119-121), so the only token on the
wire is READY. -/
theorem c2_counterexample :
    "SIZE_MISMATCH" ∉ (handle_global_model (sampleMetadata "global_model" 2 "h")
      [9] [] true "20250101_000000" (fun _ => "h")).sent ∧
    (handle_global_model (sampleMetadata "global_model" 2 "h")
      [9] [] true "20250101_000000" (fun _ => "h")).sent = ["READY"] := by
  rw [handle_run_early _ _ _ _ _ _ (by decide) (by decide)]
  constructor
  · simp
  · rfl

/-- C2 (amended): when the connection closes before the declared file_size
bytes of payload have been received, the receiver never sends SUCCESS, but
it also does not send the SIZE_MISMATCH token: it logs and returns with
only READY ever sent (the size-mismatch branch of line 133 is not reached
because the loop returns at line 121 on a closed connection). -/
theorem c2_early_close_sends_nothing (md : TransferMetadata) (stream : List Nat) (fs : FS)
    (backupOk : Bool) (ts : String) (hashFn : List Nat → String)
    (htype : md.file_type = "global_model")
    (hshort : stream.length < md.file_size) :
    (handle_global_model md stream fs backupOk ts hashFn).sent = ["READY"] ∧
    "SUCCESS" ∉ (handle_global_model md stream fs backupOk ts hashFn).sent ∧
    "SIZE_MISMATCH" ∉ (handle_global_model md stream fs backupOk ts hashFn).sent := by
  rw [handle_run_early md stream fs backupOk ts hashFn htype hshort]
  refine ⟨rfl, by simp, by simp⟩

/-- Witness for C2 at a concrete truncated transfer. -/
theorem c2_witness :
    (handle_global_model (sampleMetadata "global_model" 3 "h") [1, 2] [] false
      "20250101_000000" (fun _ => "h")).sent = ["READY"] :=
  (c2_early_close_sends_nothing (sampleMetadata "global_model" 3 "h") [1, 2] [] false
    "20250101_000000" (fun _ => "h") rfl (by decide)).1

/-- C3: the code is wrong here.  The accept loop handler for a socket-level
accept error executes time.sleep(1) (line 205), but the time module is
never imported by global_model_receiver.py (lines 7-12), so the handler
raises NameError and the accept loop terminates instead of continuing; a
single accept-time exception therefore does end the receiver, contrary to
the claim, while KeyboardInterrupt still stops it gracefully. -/
theorem c3_accept_error_crashes :
    acceptLoopIteration AcceptEvent.acceptError =
      LoopOutcome.crashed "NameError: name time is not defined" ∧
    acceptLoopIteration AcceptEvent.acceptError ≠ LoopOutcome.continues ∧
    acceptLoopIteration AcceptEvent.keyboardInterrupt = LoopOutcome.stoppedGracefully ∧
    acceptLoopIteration AcceptEvent.accepted = LoopOutcome.continues := by
  refine ⟨?_, by decide, rfl, rfl⟩
  decide

/-- C4: if every connection attempt fails, send_file_with_retry on an
existing readable source file returns False after making exactly
retry_attempts attempts numbered 1..retry_attempts in order, with exactly
retry_attempts - 1 sleeps of the fixed retry_delay, and the trace ends on
the last attempt — so the delay separates consecutive attempts and never
follows the last one. -/
theorem c4_retry_exhaustion (h : String) (attemptSucceeds : Nat → Bool)
    (retryAttempts retryDelay : Nat)
    (hfail : ∀ i, attemptSucceeds i = false)
    (hA : 1 ≤ retryAttempts) :
    (send_file_with_retry true (some h) attemptSucceeds retryAttempts retryDelay).2 = false ∧
    ((send_file_with_retry true (some h) attemptSucceeds retryAttempts retryDelay).1).filter
        isAttemptEvent = (List.range' 1 retryAttempts).map ClientEvent.attempt ∧
    ((send_file_with_retry true (some h) attemptSucceeds retryAttempts retryDelay).1).filter
        isSleepEvent =
      List.replicate (retryAttempts - 1) (ClientEvent.sleepDelay retryDelay) ∧
    ((send_file_with_retry true (some h) attemptSucceeds retryAttempts
        retryDelay).1).getLast? = some (ClientEvent.attempt retryAttempts) := by
  have haux := retryLoop_fail_aux attemptSucceeds retryAttempts retryDelay hfail
    retryAttempts 1 hA (by omega)
  simpa [send_file_with_retry] using haux

/-- Witness for C4 with the default three attempts and five-second delay. -/
theorem c4_witness :
    (send_file_with_retry true (some "abc") (fun _ => false)
      defaultRetryAttempts defaultRetryDelay).2 = false ∧
    ((send_file_with_retry true (some "abc") (fun _ => false)
      defaultRetryAttempts defaultRetryDelay).1).filter isSleepEvent =
      List.replicate 2 (ClientEvent.sleepDelay 5) ∧
    ((send_file_with_retry true (some "abc") (fun _ => false)
      defaultRetryAttempts defaultRetryDelay).1).getLast? =
      some (ClientEvent.attempt 3) := by
  have h := c4_retry_exhaustion "abc" (fun _ => false) defaultRetryAttempts
    defaultRetryDelay (fun _ => rfl) (by decide)
  exact ⟨h.1, h.2.2.1, h.2.2.2⟩

/-- C5: within a global_model transfer, the receiver sends SUCCESS if and
only if the number of payload bytes received equals the declared file_size
and the digest recomputed from the destination file persisted on disk
equals the declared file_hash; and when the full payload arrives but the
recomputed digest differs, the receiver sends HASH_MISMATCH and aborts
instead. -/
theorem c5_success_iff (md : TransferMetadata) (stream : List Nat) (fs : FS)
    (backupOk : Bool) (ts : String) (hashFn : List Nat → String)
    (htype : md.file_type = "global_model") :
    ("SUCCESS" ∈ (handle_global_model md stream fs backupOk ts hashFn).sent ↔
      ((handle_global_model md stream fs backupOk ts hashFn).bytesReceived = md.file_size ∧
        hashFn ((fsGet (handle_global_model md stream fs backupOk ts hashFn).fs
          destPath).getD []) = md.file_hash)) ∧
    (md.file_size ≤ stream.length →
      hashFn (stream.take md.file_size) ≠ md.file_hash →
      (handle_global_model md stream fs backupOk ts hashFn).sent =
        ["READY", "HASH_MISMATCH"]) := by
  rcases Nat.lt_or_ge stream.length md.file_size with hshort | hfull
  · rw [handle_run_early md stream fs backupOk ts hashFn htype hshort]
    constructor
    · constructor
      · intro hmem
        simp at hmem
      · rintro ⟨h1, -⟩
        have h2 : stream.length = md.file_size := h1
        exact absurd h2 (by omega)
    · intro hf hmis
      exact absurd hshort (Nat.not_lt.mpr hf)
  · by_cases hmatch : hashFn (stream.take md.file_size) = md.file_hash
    · rw [handle_run_success md stream fs backupOk ts hashFn htype hfull hmatch]
      constructor
      · constructor
        · intro _
          refine ⟨rfl, ?_⟩
          rw [fsGet_fsSet_same]
          exact hmatch
        · intro _
          simp
      · intro _ hmis
        exact absurd hmatch hmis
    · rw [handle_run_hash_mismatch md stream fs backupOk ts hashFn htype hfull hmatch]
      constructor
      · constructor
        · intro hmem
          simp at hmem
        · rintro ⟨-, h2⟩
          rw [fsGet_fsSet_same] at h2
          exact absurd h2 hmatch
      · intro _ _
        rfl

/-- Witness for C5 at a concrete successful transfer. -/
theorem c5_witness :
    "SUCCESS" ∈ (handle_global_model (sampleMetadata "global_model" 2 "hh")
        [5, 6] [] true "t" (fun _ => "hh")).sent ↔
      ((handle_global_model (sampleMetadata "global_model" 2 "hh")
          [5, 6] [] true "t" (fun _ => "hh")).bytesReceived =
        (sampleMetadata "global_model" 2 "hh").file_size ∧
        (fun _ => "hh") ((fsGet (handle_global_model (sampleMetadata "global_model" 2 "hh")
          [5, 6] [] true "t" (fun _ => "hh")).fs destPath).getD []) =
          (sampleMetadata "global_model" 2 "hh").file_hash) :=
  (c5_success_iff (sampleMetadata "global_model" 2 "hh") [5, 6] [] true "t"
    (fun _ => "hh") rfl).1

/-- C6: for a transfer whose destination file already exists, the receiver
copies it to the timestamp-suffixed backup path before any payload byte is
written (the backupCopy action precedes the truncating open of the
destination in the action trace); backup failure does not abort the
transfer; and after a successful transfer both the new content at the
canonical path and the old content at the distinct backup path exist. -/
theorem c6_backup_before_overwrite (md : TransferMetadata) (stream : List Nat) (fs : FS)
    (ts : String) (hashFn : List Nat → String) (old : List Nat)
    (htype : md.file_type = "global_model")
    (hold : fsGet fs destPath = some old)
    (hfull : md.file_size ≤ stream.length)
    (hmatch : hashFn (stream.take md.file_size) = md.file_hash) :
    (backupPath ts ≠ destPath ∧
     fsGet (handle_global_model md stream fs true ts hashFn).fs destPath =
       some (stream.take md.file_size) ∧
     fsGet (handle_global_model md stream fs true ts hashFn).fs (backupPath ts) = some old ∧
     (handle_global_model md stream fs true ts hashFn).sent = ["READY", "SUCCESS"] ∧
     (handle_global_model md stream fs true ts hashFn).events.take 2 =
       [FsEvent.backupCopy destPath (backupPath ts), FsEvent.openTrunc destPath]) ∧
    ((handle_global_model md stream fs false ts hashFn).sent = ["READY", "SUCCESS"] ∧
     fsGet (handle_global_model md stream fs false ts hashFn).fs destPath =
       some (stream.take md.file_size)) := by
  have hne : backupPath ts ≠ destPath := backupPath_ne_destPath ts
  constructor
  · rw [handle_run_success md stream fs true ts hashFn htype hfull hmatch]
    have hbk : backupFs fs true ts = fsSet fs (backupPath ts) old := by
      simp [backupFs, hold]
    have hbe : backupEvents fs true ts = [FsEvent.backupCopy destPath (backupPath ts)] := by
      simp [backupEvents, hold]
    refine ⟨hne, ?_, ?_, rfl, ?_⟩
    · rw [fsGet_fsSet_same]
    · rw [hbk, fsGet_fsSet_other _ _ _ _ (Ne.symm hne), fsGet_fsSet_same]
    · rw [hbe]
      rfl
  · rw [handle_run_success md stream fs false ts hashFn htype hfull hmatch]
    refine ⟨rfl, ?_⟩
    rw [fsGet_fsSet_same]

/-- Witness for C6 at a concrete overwrite of an existing model file. -/
theorem c6_witness :
    fsGet (handle_global_model (sampleMetadata "global_model" 1 "h") [7]
      [(destPath, [42])] true "20250101" (fun _ => "h")).fs destPath = some [7] ∧
    fsGet (handle_global_model (sampleMetadata "global_model" 1 "h") [7]
      [(destPath, [42])] true "20250101" (fun _ => "h")).fs (backupPath "20250101") =
      some [42] := by
  have h := c6_backup_before_overwrite (sampleMetadata "global_model" 1 "h") [7]
    [(destPath, [42])] "20250101" (fun _ => "h") [42] rfl (by simp [fsGet]) (by decide) rfl
  exact ⟨h.1.2.1, h.1.2.2.1⟩

/-- C7: the destination path is determined by file_type alone — the whole
observable behaviour of the handler is unchanged when only the
sender-supplied file_name differs, and every payload write of an accepted
global_model transfer targets the fixed canonical path global_latest.h5. -/
theorem c7_dest_independent_of_file_name (md : TransferMetadata) (name : String)
    (stream : List Nat) (fs : FS) (backupOk : Bool) (ts : String)
    (hashFn : List Nat → String) :
    (handle_global_model { md with file_name := name } stream fs backupOk ts hashFn =
      handle_global_model md stream fs backupOk ts hashFn) ∧
    (md.file_type = "global_model" →
      ∀ p n, FsEvent.writeBytes p n ∈
        (handle_global_model md stream fs backupOk ts hashFn).events → p = destPath) := by
  constructor
  · cases md
    rfl
  · intro htype p n hmem
    rcases Nat.lt_or_ge stream.length md.file_size with hshort | hfull
    · rw [handle_run_early md stream fs backupOk ts hashFn htype hshort] at hmem
      by_cases hb : (fsGet fs destPath).isSome && backupOk <;>
        simp [backupEvents, hb] at hmem <;> exact hmem.1
    · by_cases hmatch : hashFn (stream.take md.file_size) = md.file_hash
      · rw [handle_run_success md stream fs backupOk ts hashFn htype hfull hmatch] at hmem
        by_cases hb : (fsGet fs destPath).isSome && backupOk <;>
          simp [backupEvents, hb] at hmem <;> exact hmem.1
      · rw [handle_run_hash_mismatch md stream fs backupOk ts hashFn htype hfull hmatch] at hmem
        by_cases hb : (fsGet fs destPath).isSome && backupOk <;>
          simp [backupEvents, hb] at hmem <;> exact hmem.1

/-- Witness for C7: two transfers that differ only in file_name behave
identically, and the one payload write of a concrete accepted transfer
targets the canonical path. -/
theorem c7_witness :
    handle_global_model { sampleMetadata "global_model" 1 "h" with file_name := "evil.h5" }
        [7] [] true "t" (fun _ => "h") =
      handle_global_model (sampleMetadata "global_model" 1 "h") [7] [] true "t"
        (fun _ => "h") ∧
    destPath = destPath := by
  have h := c7_dest_independent_of_file_name (sampleMetadata "global_model" 1 "h")
    "evil.h5" [7] [] true "t" (fun _ => "h")
  refine ⟨h.1, h.2 rfl destPath 1 ?_⟩
  rw [handle_run_success (sampleMetadata "global_model" 1 "h") [7] [] true "t"
    (fun _ => "h") rfl (by decide) rfl]
  simp [backupEvents, fsGet, sampleMetadata]

/-- C8 as frozen is false on the code: the older client
(file_transfer_client.py, send_file) does not close its socket on the
refused-connection exit path — the ConnectionRefusedError handler
(lines 127-130) returns without any close and there is no finally clause. -/
theorem c8_counterexample :
    (send_file refusedEnv [1] 8192).socketClosed = false := rfl

/-- C8 (amended): the enhanced client closes the socket on every exit path
of a single attempt (its try block ends in finally sock.close); the claim
does not hold of the older send_file client, which closes only on the
non-READY path and on the two paths that reach the final token — on the
refused, timed-out and mid-stream-exception paths it returns with the
socket still open. -/
theorem c8_enhanced_always_closes (env : AttemptEnv) (file : List Nat) (chunkSize : Nat) :
    (send_file_single_attempt env file chunkSize).socketClosed = true ∧
    ((env.connect = ConnectOutcome.ok ∧ env.midStreamFailAfter = none ∧
        env.finalRecvTimeout = false) →
      (send_file env file chunkSize).socketClosed = true) := by
  rcases env with ⟨c, a, m, t, f⟩
  constructor
  · cases c
    case refused => rfl
    case timedOut => rfl
    case ok =>
      by_cases ha : a = "READY" <;> cases m <;> cases t <;>
        simp [send_file_single_attempt, ha]
  · rintro ⟨hc, hm, ht⟩
    simp only at hc hm ht
    subst hc
    subst hm
    subst ht
    by_cases ha : a = "READY" <;> simp [send_file, ha]

/-- Witness for C8: the enhanced client closes the socket on a refused
connection and on a completed attempt of the older shape. -/
theorem c8_witness :
    (send_file_single_attempt refusedEnv [1] 8192).socketClosed = true ∧
    (send_file cleanEnv [1] 8192).socketClosed = true :=
  ⟨(c8_enhanced_always_closes refusedEnv [1] 8192).1,
   (c8_enhanced_always_closes cleanEnv [1] 8192).2 ⟨rfl, rfl, rfl⟩⟩

/-- C9: for the example scenario — a 1,048,576-byte file with chunk size
8192 on a clean run — the client emits exactly 128 progress updates, the
final one reporting bytes_sent 1048576 at exactly 100 percent, the attempt
succeeds, and the server counts bytes_received 1048576 and answers
SUCCESS. -/
theorem c9_example_scenario (file : List Nat) (md : TransferMetadata)
    (hashFn : List Nat → String) (env : AttemptEnv) (fs : FS) (backupOk : Bool)
    (ts : String)
    (hlen : file.length = 1048576)
    (htype : md.file_type = "global_model") (hsize : md.file_size = 1048576)
    (hhash : hashFn file = md.file_hash)
    (henv : env = cleanEnv) :
    (send_file_single_attempt env file 8192).updates.length = 128 ∧
    (send_file_single_attempt env file 8192).updates.getLast? =
      some (1048576, progressPct 1048576 1048576) ∧
    progressPct 1048576 1048576 = 100 ∧
    (send_file_single_attempt env file 8192).success = true ∧
    (handle_global_model md file fs backupOk ts hashFn).bytesReceived = 1048576 ∧
    (handle_global_model md file fs backupOk ts hashFn).sent = ["READY", "SUCCESS"] := by
  subst henv
  have hupd : (send_file_single_attempt cleanEnv file 8192).updates =
      sendLoop 8192 file 0 file.length := by
    simp [send_file_single_attempt, cleanEnv]
  have hfne : file ≠ [] := by
    intro hcon
    rw [hcon] at hlen
    simp at hlen
  have hfull : md.file_size ≤ file.length := by omega
  have hmatch : hashFn (file.take md.file_size) = md.file_hash := by
    rw [List.take_of_length_le (by omega)]
    exact hhash
  refine ⟨?_, ?_, ?_, ?_, ?_, ?_⟩
  · rw [hupd, sendLoop_length 8192 (by norm_num) file.length file 0 file.length le_rfl,
      hlen]
  · rw [hupd, sendLoop_getLast 8192 (by norm_num) file.length file 0 file.length
      le_rfl hfne]
    rw [hlen]
  · rw [progressPct]
    norm_num
  · simp [send_file_single_attempt, cleanEnv]
  · rw [handle_run_success md file fs backupOk ts hashFn htype hfull hmatch]
    exact hsize
  · rw [handle_run_success md file fs backupOk ts hashFn htype hfull hmatch]

/-- Witness for C9 on a concrete all-zero file of 1,048,576 bytes. -/
theorem c9_witness :
    (send_file_single_attempt cleanEnv (List.replicate 1048576 0) 8192).updates.length =
      128 ∧
    (handle_global_model (sampleMetadata "global_model" 1048576 "h")
      (List.replicate 1048576 0) [] true "t" (fun _ => "h")).sent =
      ["READY", "SUCCESS"] := by
  have h := c9_example_scenario (List.replicate 1048576 0)
    (sampleMetadata "global_model" 1048576 "h") (fun _ => "h") cleanEnv [] true "t"
    (List.length_replicate 1048576 0) rfl rfl rfl rfl
  exact ⟨h.1, h.2.2.2.2.2⟩

/-- C10: the receive loop asks the socket for at most the missing byte
count on every read, so the handler never counts more than the declared
file_size and consumes exactly bytes_received bytes of the stream; the
loop can only end normally with bytes_received equal to the declared size,
which makes the SIZE_MISMATCH branch unreachable on every input; and for a
declared file_size of 0 the loop is skipped, the destination file is
truncated to empty, and verification proceeds against the digest of the
empty byte sequence. -/
theorem c10_no_overread (md : TransferMetadata) (stream : List Nat) (fs : FS)
    (backupOk : Bool) (ts : String) (hashFn : List Nat → String) :
    (∀ chunkSize remaining : Nat, recvRequest chunkSize remaining ≤ remaining) ∧
    (handle_global_model md stream fs backupOk ts hashFn).bytesReceived ≤ md.file_size ∧
    "SIZE_MISMATCH" ∉ (handle_global_model md stream fs backupOk ts hashFn).sent ∧
    ((recvLoop receiverChunkSize md.file_size stream []).closedEarly = false →
      (recvLoop receiverChunkSize md.file_size stream []).received.length = md.file_size) ∧
    ((recvLoop receiverChunkSize md.file_size stream []).remaining =
      stream.drop (recvLoop receiverChunkSize md.file_size stream []).received.length) ∧
    (md.file_size = 0 → md.file_type = "global_model" →
      (handle_global_model md stream fs backupOk ts hashFn).bytesReceived = 0 ∧
      fsGet (handle_global_model md stream fs backupOk ts hashFn).fs destPath = some [] ∧
      (handle_global_model md stream fs backupOk ts hashFn).sent =
        ["READY", if hashFn [] = md.file_hash then "SUCCESS" else "HASH_MISMATCH"]) := by
  have hcs : 1 ≤ receiverChunkSize := by norm_num [receiverChunkSize]
  have hrun := recvLoop_run receiverChunkSize md.file_size hcs stream
  refine ⟨fun c r => Nat.min_le_right c r, ?_, ?_, ?_, ?_, ?_⟩
  · by_cases htype : md.file_type = "global_model"
    · rcases Nat.lt_or_ge stream.length md.file_size with hshort | hfull
      · rw [handle_run_early md stream fs backupOk ts hashFn htype hshort]
        exact Nat.le_of_lt hshort
      · by_cases hmatch : hashFn (stream.take md.file_size) = md.file_hash
        · rw [handle_run_success md stream fs backupOk ts hashFn htype hfull hmatch]
        · rw [handle_run_hash_mismatch md stream fs backupOk ts hashFn htype hfull hmatch]
    · rw [handle_run_invalid_type md stream fs backupOk ts hashFn htype]
      exact Nat.zero_le _
  · by_cases htype : md.file_type = "global_model"
    · rcases Nat.lt_or_ge stream.length md.file_size with hshort | hfull
      · rw [handle_run_early md stream fs backupOk ts hashFn htype hshort]
        simp
      · by_cases hmatch : hashFn (stream.take md.file_size) = md.file_hash
        · rw [handle_run_success md stream fs backupOk ts hashFn htype hfull hmatch]
          simp
        · rw [handle_run_hash_mismatch md stream fs backupOk ts hashFn htype hfull hmatch]
          simp
    · rw [handle_run_invalid_type md stream fs backupOk ts hashFn htype]
      simp
  · intro hdone
    rw [hrun] at hdone ⊢
    by_cases hshort : stream.length < md.file_size
    · rw [if_pos hshort] at hdone
      simp at hdone
    · rw [if_neg hshort] at hdone ⊢
      simp only [List.length_take]
      omega
  · rw [hrun]
    by_cases hshort : stream.length < md.file_size
    · rw [if_pos hshort]
      simp only
      rw [List.drop_of_length_le le_rfl]
    · rw [if_neg hshort]
      simp only [List.length_take]
      have hmin : min md.file_size stream.length = md.file_size := by omega
      rw [hmin]
  · intro hzero htype
    have hfull : md.file_size ≤ stream.length := by omega
    have htake : stream.take md.file_size = [] := by
      rw [hzero]
      simp
    by_cases hmatch : hashFn [] = md.file_hash
    · rw [handle_run_success md stream fs backupOk ts hashFn htype hfull
        (by rw [htake]; exact hmatch)]
      refine ⟨hzero, ?_, ?_⟩
      · rw [htake, fsGet_fsSet_same]
      · rw [if_pos hmatch]
    · rw [handle_run_hash_mismatch md stream fs backupOk ts hashFn htype hfull
        (by rw [htake]; exact hmatch)]
      refine ⟨hzero, ?_, ?_⟩
      · rw [htake, fsGet_fsSet_same]
      · rw [if_neg hmatch]

/-- Witness for C10 at a zero-size transfer and a concrete request bound. -/
theorem c10_witness :
    recvRequest 8192 5 ≤ 5 ∧
    (handle_global_model (sampleMetadata "global_model" 0 "h0") [] [] true "t"
      (fun _ => "h0")).bytesReceived = 0 := by
  have h := c10_no_overread (sampleMetadata "global_model" 0 "h0") [] [] true "t"
    (fun _ => "h0")
  exact ⟨h.1 8192 5, (h.2.2.2.2.2 rfl rfl).1⟩
